import Mathlib

/-
  Shallow embedding of the agent orchestration core of AgentricAI University
  (src/core/orchestrator.js).  External collaborators (the Guardian agent,
  the Black-Box agent, departmental agents, the agent-config registry) are
  modelled by explicit outcome parameters: each `await x.processMessage(...)`
  call either returns a value or throws, and the outcome of each such call
  is a field of a context record.  JavaScript exceptions are modelled with
  the `JsOutcome` sum; `try/catch` blocks become explicit case analysis.
-/

namespace AAU

/-- Outcome of a JavaScript async call: a resolved value or a thrown error. -/
inductive JsOutcome (α : Type) where
  | ok : α → JsOutcome α
  | thrown : String → JsOutcome α
deriving DecidableEq

/-- One agent record, as built by `createAgent` in orchestrator.js.
`name` is `Option String` because `config.name` may be absent (undefined). -/
structure Agent where
  id : String
  name : Option String
  agentType : Option String
  status : String
  priority : Nat
  immutable : Bool
  isStudentFacing : Bool
  lastActive : String
  interactions : Nat
deriving DecidableEq

/-- The orchestrator `systemState` object (fields the core mutates). -/
structure SystemState where
  status : String
  lastHealthCheck : Option String
  totalInteractions : Nat
  emergencyMode : Bool
deriving DecidableEq

/-- Orchestrator state: the `agents` map, the `activeAgents` map,
`systemState`, and `isInitialized`.  JS `Map`s are association lists in
insertion order; `Map.get`/`Map.set` are `mapGet`/`mapSet`. -/
structure OrchState where
  agents : List (String × Agent)
  activeAgents : List (String × Agent)
  systemState : SystemState
  isInitialized : Bool
deriving DecidableEq

/-- JS `Map.get`: first entry with the given key. -/
def mapGet (m : List (String × Agent)) (k : String) : Option Agent :=
  match m with
  | [] => none
  | (k1, v1) :: rest => if k1 == k then some v1 else mapGet rest k

/-- JS `Map.set`: replace the entry in place, or append when absent. -/
def mapSet (m : List (String × Agent)) (k : String) (v : Agent) :
    List (String × Agent) :=
  match m with
  | [] => [(k, v)]
  | (k1, v1) :: rest =>
    if k1 == k then (k, v) :: rest else (k1, v1) :: mapSet rest k v

/-- An agent configuration object handed to `createAgent`; every field may
be absent, as in the JS registry JSON. -/
structure AgentConfig where
  cfgId : Option String
  name : Option String
  agentType : Option String
  priority : Option Nat
deriving DecidableEq

/-- JS `config.priority || 5`: `0` is falsy, so a configured priority of 0
also yields the default 5. -/
def jsPriorityOr (v : Option Nat) (dflt : Nat) : Nat :=
  match v with
  | some p => if p == 0 then dflt else p
  | none => dflt

/-- `createAgent(agentId, config)` from orchestrator.js: builds the agent
record, sets its status to active, writes it into `this.agents` (JS
`Map.set`, which overwrites an existing entry), and returns it.  The source
performs no validation whatsoever: no check of `config.name`, no check for
a duplicate id, and no error path.  `now` stands for `Date.now()` /
`new Date().toISOString()`. -/
def createAgent (st : OrchState) (agentId : String) (config : AgentConfig)
    (now : String) : OrchState × Agent :=
  let agent : Agent :=
    { id := config.cfgId.getD ("agent-" ++ agentId ++ "-" ++ now)
      name := config.name
      agentType := config.agentType
      status := "active"
      priority := jsPriorityOr config.priority 5
      immutable := false
      isStudentFacing := false
      lastActive := now
      interactions := 0 }
  ({ st with agents := mapSet st.agents agentId agent }, agent)

/-- The `updateStatus` closure attached to every agent: unconditionally
overwrites `agent.status` and `metadata.lastActive`; there is no
immutability check on any path. -/
def updateStatus (agent : Agent) (status : String) (now : String) : Agent :=
  { agent with status := status, lastActive := now }

/-- `getMessagePriority(fromAgentId, toAgentId)`: default 5 when either
endpoint is not in `activeAgents`; otherwise guardian forces 1, counseling
forces 2, else the minimum of the two agent priorities. -/
def getMessagePriority (st : OrchState) (fromAgentId toAgentId : String) :
    Nat :=
  match mapGet st.activeAgents fromAgentId, mapGet st.activeAgents toAgentId with
  | some fromAgent, some toAgent =>
    if fromAgentId == "guardian" || toAgentId == "guardian" then 1
    else if fromAgentId == "counseling" || toAgentId == "counseling" then 2
    else min fromAgent.priority toAgent.priority
  | _, _ => 5

/-- Character-list equality test for a leading segment (helper for the
substring test used to model JS `String.prototype.includes`). -/
def kwAt : List Char → List Char → Bool
  | [], _ => true
  | _ :: _, [] => false
  | a :: as, b :: bs => a == b && kwAt as bs

/-- Does the keyword occur as a contiguous run anywhere in the text? -/
def hasKw (sub : List Char) : List Char → Bool
  | [] => kwAt sub []
  | b :: bs => kwAt sub (b :: bs) || hasKw sub bs

/-- JS `s.includes(sub)`. -/
def strIncludes (s sub : String) : Bool := hasKw sub.toList s.toList

/-- JS `String.prototype.toLowerCase` on one character (ASCII range, the
only range the keyword table needs). -/
def jsCharLower (c : Char) : Char :=
  if 'A' ≤ c && c ≤ 'Z' then Char.ofNat (c.toNat + 32) else c

/-- JS `s.toLowerCase()`. -/
def jsToLower (s : String) : String := String.mk (s.toList.map jsCharLower)

/-- A student interaction object; `determineDepartment` reads its
`content` property, which may be absent. -/
structure Interaction where
  content : Option String
deriving DecidableEq

/-- `determineDepartment(interaction)`: lower-cases
`interaction.content?.toLowerCase() || ''` and runs the ordered keyword
table from orchestrator.js, first match wins; no match yields null. -/
def determineDepartment (interaction : Interaction) : Option String :=
  let c := jsToLower (interaction.content.getD "")
  if strIncludes c "math" || strIncludes c "calculation" then some "math"
  else if strIncludes c "science" || strIncludes c "experiment" then some "science"
  else if strIncludes c "art" || strIncludes c "creative" then some "arts"
  else if strIncludes c "exercise" || strIncludes c "fitness" then some "athletics"
  else if strIncludes c "sad" || strIncludes c "worried" then some "counseling"
  else none

/-- Result of the Guardian ethical review:
`{approved: bool, reason: string}`. -/
structure ReviewResult where
  approved : Bool
  reason : String
deriving DecidableEq

/-- Outcomes of the external calls one `routeMessage` invocation may make:
whether `this.guardian` / `this.blackBox` are non-null, and what each
`processMessage` call would return or throw if reached. -/
structure RouteCtx where
  guardianPresent : Bool
  review : JsOutcome ReviewResult
  blackBoxPresent : Bool
  auditOutcome : JsOutcome Unit
  deliverOutcome : JsOutcome String
deriving DecidableEq

/-- What `routeMessage` hands back to its caller: the target agent response
on delivery, `{success:false, reason}` on a Guardian block, or
`{success:false, error}` from the surrounding catch block. -/
inductive RouteOutcome where
  | delivered : String → RouteOutcome
  | blocked : String → RouteOutcome
  | errorCaught : String → RouteOutcome
deriving DecidableEq

/-- Observable effects of one `routeMessage` call: how many times the
Guardian review, the Black-Box `log_interaction` call, and the target
agent `processMessage` call were each invoked, plus the envelope fields
the claims mention. -/
structure RouteTrace where
  reviewCalls : Nat
  auditCalls : Nat
  deliverCalls : Nat
  envPriority : Nat
  envEthicalReview : Bool
deriving DecidableEq

/-- Delivery step of `routeMessage`: look up the target in `activeAgents`
(a missing target throws, caught by the outer catch), call its
`processMessage`, and on success increment `totalInteractions`. -/
def deliverStep (ctx : RouteCtx) (st : OrchState) (toAgentId : String)
    (rc ac : Nat) (prio : Nat) (er : Bool) :
    RouteOutcome × OrchState × RouteTrace :=
  match mapGet st.activeAgents toAgentId with
  | none =>
    (.errorCaught ("Target agent " ++ toAgentId ++ " not found"), st,
     { reviewCalls := rc, auditCalls := ac, deliverCalls := 0,
       envPriority := prio, envEthicalReview := er })
  | some _ =>
    match ctx.deliverOutcome with
    | .thrown e =>
      (.errorCaught e, st,
       { reviewCalls := rc, auditCalls := ac, deliverCalls := 1,
         envPriority := prio, envEthicalReview := er })
    | .ok resp =>
      (.delivered resp,
       { st with systemState :=
          { st.systemState with
              totalInteractions := st.systemState.totalInteractions + 1 } },
       { reviewCalls := rc, auditCalls := ac, deliverCalls := 1,
         envPriority := prio, envEthicalReview := er })

/-- Black-Box step of `routeMessage`: when `this.blackBox` is non-null,
call `blackBox.processMessage({type: log_interaction, data: envelope})`;
a thrown audit call is caught by the outer catch before delivery. -/
def auditStep (ctx : RouteCtx) (st : OrchState) (toAgentId : String)
    (rc : Nat) (prio : Nat) (er : Bool) :
    RouteOutcome × OrchState × RouteTrace :=
  if ctx.blackBoxPresent then
    match ctx.auditOutcome with
    | .thrown e =>
      (.errorCaught e, st,
       { reviewCalls := rc, auditCalls := 1, deliverCalls := 0,
         envPriority := prio, envEthicalReview := er })
    | .ok _ => deliverStep ctx st toAgentId rc 1 prio er
  else deliverStep ctx st toAgentId rc 0 prio er

/-- `routeMessage(fromAgentId, toAgentId, message)` from orchestrator.js.
The envelope is built with `priority = getMessagePriority(...)` and
`metadata.ethicalReview = false`; then, only when `this.guardian` is
non-null AND the sender is not the Guardian, the Guardian reviews the
envelope (a rejection returns immediately — before the Black-Box step);
then the Black-Box logs; then the target is resolved and the message
delivered.  All throws are caught and returned as `{success:false,
error}`. -/
def routeMessage (ctx : RouteCtx) (st : OrchState)
    (fromAgentId toAgentId : String) (_message : String) :
    RouteOutcome × OrchState × RouteTrace :=
  let prio := getMessagePriority st fromAgentId toAgentId
  if ctx.guardianPresent && fromAgentId != "guardian" then
    match ctx.review with
    | .thrown e =>
      (.errorCaught e, st,
       { reviewCalls := 1, auditCalls := 0, deliverCalls := 0,
         envPriority := prio, envEthicalReview := false })
    | .ok r =>
      if !r.approved then
        (.blocked r.reason, st,
         { reviewCalls := 1, auditCalls := 0, deliverCalls := 0,
           envPriority := prio, envEthicalReview := false })
      else auditStep ctx st toAgentId 1 prio true
  else auditStep ctx st toAgentId 0 prio false

/-- The outcomes of the agent-creation steps performed by `initialize()`:
for each creation slot, either the configuration that `createAgent` will
receive, or the error thrown while creating that agent (for example a
missing registry entry).  `now` stands for the clock readings. -/
structure InitCtx where
  guardianCfg : JsOutcome AgentConfig
  blackBoxCfg : JsOutcome AgentConfig
  departmentalCfgs : List (String × JsOutcome AgentConfig)
  studentCfg : JsOutcome AgentConfig
  now : String
deriving DecidableEq

/-- `initializeImmutableAgents()`: create the Guardian, set
`immutable = true` and `priority = 0` on it, register it in
`activeAgents`; then the same for the Black-Box.  Any throw propagates
(after the mutations already made). -/
def initImmutableAgents (ctx : InitCtx) (st : OrchState) :
    JsOutcome Unit × OrchState :=
  match ctx.guardianCfg with
  | .thrown e => (.thrown e, st)
  | .ok gCfg =>
    let p1 := createAgent st "guardian" gCfg ctx.now
    let g1 := { p1.2 with immutable := true, priority := 0 }
    let st2 := { p1.1 with
      agents := mapSet p1.1.agents "guardian" g1,
      activeAgents := mapSet p1.1.activeAgents "guardian" g1 }
    match ctx.blackBoxCfg with
    | .thrown e => (.thrown e, st2)
    | .ok bCfg =>
      let p2 := createAgent st2 "blackBox" bCfg ctx.now
      let b1 := { p2.2 with immutable := true, priority := 0 }
      (.ok (), { p2.1 with
        agents := mapSet p2.1.agents "blackBox" b1,
        activeAgents := mapSet p2.1.activeAgents "blackBox" b1 })

/-- `initializeDepartmentalAgents()`: the for-loop over the departmental
registry entries; each agent whose creation throws is logged and skipped,
and the loop continues with the remaining agents. -/
def initDepartmentalAgents (now : String) :
    List (String × JsOutcome AgentConfig) → OrchState → OrchState
  | [], st => st
  | (_, .thrown _) :: rest, st => initDepartmentalAgents now rest st
  | (deptId, .ok cfg) :: rest, st =>
    let p := createAgent st deptId cfg now
    initDepartmentalAgents now rest
      { p.1 with activeAgents := mapSet p.1.activeAgents deptId p.2 }

/-- `initializeStudentAgent()`: create the student-facing agent under the
fixed key agentricAI, mark `isStudentFacing`, register it; a throw
propagates. -/
def initStudentAgent (ctx : InitCtx) (st : OrchState) :
    JsOutcome Unit × OrchState :=
  match ctx.studentCfg with
  | .thrown e => (.thrown e, st)
  | .ok cfg =>
    let p := createAgent st "agentricAI" cfg ctx.now
    let s1 := { p.2 with isStudentFacing := true }
    (.ok (), { p.1 with
      agents := mapSet p.1.agents "agentricAI" s1,
      activeAgents := mapSet p.1.activeAgents "agentricAI" s1 })

/-- `initialize()` from orchestrator.js: immutable agents, then the
departmental loop, then the student agent; on success `isInitialized`
becomes true and `systemState.status` becomes operational; any throw is
caught, `systemState.status` becomes error, and the error is re-thrown
(the returned `JsOutcome` is the promise outcome). -/
def initOrchestrator (ctx : InitCtx) (st : OrchState) :
    JsOutcome Unit × OrchState :=
  match initImmutableAgents ctx st with
  | (.thrown e, st1) =>
    (.thrown e, { st1 with systemState :=
      { st1.systemState with status := "error" } })
  | (.ok _, st1) =>
    let st2 := initDepartmentalAgents ctx.now ctx.departmentalCfgs st1
    match initStudentAgent ctx st2 with
    | (.thrown e, st3) =>
      (.thrown e, { st3 with systemState :=
        { st3.systemState with status := "error" } })
    | (.ok _, st3) =>
      (.ok (), { st3 with
        isInitialized := true,
        systemState := { st3.systemState with status := "operational" } })

/-- Outcomes of the external notification calls one `handleEmergency`
invocation may make: whether `this.guardian` is non-null, whether the
Counseling and Principal agents are in `activeAgents`, and what each
notification call would do if reached. -/
structure EmergCtx where
  guardianPresent : Bool
  guardianNotify : JsOutcome Unit
  counselingPresent : Bool
  counselingNotify : JsOutcome Unit
  principalPresent : Bool
  principalNotify : JsOutcome Unit
deriving DecidableEq

/-- The notification calls actually attempted by one `handleEmergency`
invocation, in order. -/
structure EmergTrace where
  notified : List String
deriving DecidableEq

/-- Principal step of `handleEmergency`: alert the principal agent when
registered; a throw propagates. -/
def emergencyPrincipal (ctx : EmergCtx) (st : OrchState) (acc : List String) :
    JsOutcome Unit × OrchState × EmergTrace :=
  if ctx.principalPresent then
    match ctx.principalNotify with
    | .thrown e => (.thrown e, st, { notified := acc ++ ["principal"] })
    | .ok _ => (.ok (), st, { notified := acc ++ ["principal"] })
  else (.ok (), st, { notified := acc })

/-- Counseling step of `handleEmergency`: alert the counseling agent when
registered; there is no try/catch here, so a throw propagates and the
principal agent is never reached. -/
def emergencyFanout (ctx : EmergCtx) (st : OrchState) (acc : List String) :
    JsOutcome Unit × OrchState × EmergTrace :=
  if ctx.counselingPresent then
    match ctx.counselingNotify with
    | .thrown e => (.thrown e, st, { notified := acc ++ ["counseling"] })
    | .ok _ => emergencyPrincipal ctx st (acc ++ ["counseling"])
  else emergencyPrincipal ctx st acc

/-- `handleEmergency(type, data)` from orchestrator.js: set
`systemState.emergencyMode = true`, then await the Guardian emergency
protocol (when `this.guardian` is non-null), then alert the counseling and
principal agents in that order.  The function has no try/catch, so the
first thrown notification rejects the whole call; `emergencyMode` stays
true on every path. -/
def handleEmergency (ctx : EmergCtx) (st : OrchState) :
    JsOutcome Unit × OrchState × EmergTrace :=
  let st1 := { st with systemState :=
    { st.systemState with emergencyMode := true } }
  if ctx.guardianPresent then
    match ctx.guardianNotify with
    | .thrown e => (.thrown e, st1, { notified := ["guardian"] })
    | .ok _ => emergencyFanout ctx st1 ["guardian"]
  else emergencyFanout ctx st1 []

/-- One operation of the orchestrator core, for stating run-wide
invariants over `systemState`. -/
inductive CoreOp where
  | opInit : InitCtx → CoreOp
  | opRoute : RouteCtx → String → String → String → CoreOp
  | opEmergency : EmergCtx → CoreOp
  | opCreateAgent : String → AgentConfig → String → CoreOp
  | opHealthTick : String → CoreOp

/-- Apply one core operation to the orchestrator state.  `opHealthTick` is
the health-monitoring timer body, which only refreshes
`lastHealthCheck`. -/
def applyOp (op : CoreOp) (st : OrchState) : OrchState :=
  match op with
  | .opInit ctx => (initOrchestrator ctx st).2
  | .opRoute ctx f t msg => (routeMessage ctx st f t msg).2.1
  | .opEmergency ctx => (handleEmergency ctx st).2.1
  | .opCreateAgent id cfg now => (createAgent st id cfg now).1
  | .opHealthTick now =>
    { st with systemState :=
      { st.systemState with lastHealthCheck := some now } }

/-! ### Derived predicates used to state the routing properties -/

/-- Did the envelope pass the Guardian gate in `routeMessage`?  True when
the review is skipped (`this.guardian` null or the sender is the Guardian)
or when the review resolved with `approved = true`. -/
def passesGate (ctx : RouteCtx) (fromAgentId : String) : Bool :=
  if ctx.guardianPresent && fromAgentId != "guardian" then
    match ctx.review with
    | .ok r => r.approved
    | .thrown _ => false
  else true

/-- Is a routing outcome a successful delivery response? -/
def isDelivered : RouteOutcome → Bool
  | .delivered _ => true
  | .blocked _ => false
  | .errorCaught _ => false

/-- Would the target agent `processMessage` call resolve (not throw)? -/
def isOkDelivery : JsOutcome String → Bool
  | .ok _ => true
  | .thrown _ => false

/-- `this.systemState.totalInteractions++`. -/
def bumpInteractions (st : OrchState) : OrchState :=
  { st with systemState :=
    { st.systemState with
        totalInteractions := st.systemState.totalInteractions + 1 } }

/-- Did an agent-creation slot of `initialize()` resolve? -/
def cfgIsOk : JsOutcome AgentConfig → Bool
  | .ok _ => true
  | .thrown _ => false

/-! ### Concrete sample data for witnesses and counterexamples -/

/-- A concrete Guardian agent record. -/
def gAgent : Agent :=
  ⟨"guardian-001", some "The Guardian", some "guardian", "active", 0, true, false, "t0", 0⟩

/-- A concrete math department agent record. -/
def mAgent : Agent :=
  ⟨"math-001", some "The Mathematician", some "math", "active", 4, false, false, "t0", 0⟩

/-- A concrete student-facing agent record. -/
def sAgent : Agent :=
  ⟨"student-001", some "AgentricAI", some "student", "active", 3, false, true, "t0", 0⟩

/-- A concrete counseling agent record. -/
def cAgent : Agent :=
  ⟨"counseling-001", some "The Listener", some "counseling", "active", 1, false, false, "t0", 0⟩

/-- A concrete post-initialization orchestrator state. -/
def sampleState : OrchState :=
  ⟨[("guardian", gAgent), ("math", mAgent), ("agentricAI", sAgent), ("counseling", cAgent)],
   [("guardian", gAgent), ("math", mAgent), ("agentricAI", sAgent), ("counseling", cAgent)],
   ⟨"operational", none, 0, false⟩, true⟩

/-- The pre-initialization orchestrator state from the constructor. -/
def emptyState : OrchState := ⟨[], [], ⟨"initializing", none, 0, false⟩, false⟩

/-- A concrete agent configuration (first registration). -/
def cfgA : AgentConfig := ⟨some "math-001", some "First Mathematician", some "math", some 4⟩

/-- A concrete agent configuration (conflicting re-registration). -/
def cfgB : AgentConfig := ⟨some "math-002", some "Second Mathematician", some "math", some 6⟩

/-! ### Registry map lemmas -/

theorem mapGet_mapSet_self (m : List (String × Agent)) (k : String) (v : Agent) :
    mapGet (mapSet m k v) k = some v := by
  induction m with
  | nil => simp [mapGet, mapSet]
  | cons hd tl ih =>
    obtain ⟨k1, v1⟩ := hd
    by_cases h : k1 = k
    · simp [mapGet, mapSet, h]
    · simp [mapGet, mapSet, h, ih]

theorem mapGet_mapSet_ne (m : List (String × Agent)) (k k1 : String) (v : Agent)
    (h : k1 ≠ k) : mapGet (mapSet m k v) k1 = mapGet m k1 := by
  have h2 : ¬ (k = k1) := fun hh => h hh.symm
  induction m with
  | nil => simp [mapGet, mapSet, h2]
  | cons hd tl ih =>
    obtain ⟨ka, va⟩ := hd
    by_cases ha : ka = k
    · subst ha
      simp [mapGet, mapSet, h2]
    · simp [mapGet, mapSet, ha, ih]

/-! ### C6: the keyword classifier -/

/-- C6 counterexample: the spec example
`determineDepartment("let's paint together") == "arts"` fails on the code:
the lower-cased content contains neither "art" nor "creative" (nor any
other keyword of the table), so the classifier returns null. -/
theorem determineDepartment_paint_not_arts :
    ¬ determineDepartment ⟨some "let\x27s paint together"⟩ = some "arts" := by decide

/-- C6 (amended): `determineDepartment` is a pure first-match-wins keyword
classifier; the math, counseling and no-match examples hold as claimed,
but "let's paint together" matches no keyword and returns null rather than
"arts".  The last conjunct shows first-match-wins: content matching both
the math row and the counseling row classifies as math. -/
theorem determineDepartment_examples :
    determineDepartment ⟨some "I need help with math homework"⟩ = some "math"
    ∧ determineDepartment ⟨some "I feel sad today"⟩ = some "counseling"
    ∧ determineDepartment ⟨some "let\x27s paint together"⟩ = none
    ∧ determineDepartment ⟨some "hello there"⟩ = none
    ∧ determineDepartment ⟨some "sad about a math test"⟩ = some "math" := by decide

/-! ### C3: createAgent performs no validation -/

/-- C3 counterexample: creating two agents under the same id succeeds both
times and the second silently overwrites the first — the registry entry
for "math" afterwards carries the second configuration's name, and no
error of any kind is raised (`createAgent` has no failure path at all). -/
theorem createAgent_no_validation_error :
    (mapGet ((createAgent ((createAgent emptyState "math" cfgA "t0").1)
        "math" cfgB "t1").1).agents "math").map Agent.name
      = some (some "Second Mathematician") := by decide

/-- C3 (amended): `createAgent` never fails: for every state, id and
configuration it returns an agent and writes it into the registry,
overwriting any existing entry for that id (JS `Map.set`), and a missing
`config.name` simply yields an agent whose name is absent — there is no
`ValidationError` path in the code. -/
theorem createAgent_silently_overwrites (st : OrchState) (agentId : String)
    (config : AgentConfig) (now : String) :
    mapGet ((createAgent st agentId config now).1).agents agentId
      = some (createAgent st agentId config now).2
    ∧ ((createAgent st agentId config now).2).name = config.name := by
  constructor
  · simpa [createAgent] using
      mapGet_mapSet_self st.agents agentId
        ((createAgent st agentId config now).2)
  · rfl

/-! ### Routing-step lemmas -/

theorem deliverStep_trace_frame (ctx : RouteCtx) (st : OrchState)
    (toAgentId : String) (rc ac prio : Nat) (er : Bool) :
    (deliverStep ctx st toAgentId rc ac prio er).2.2.auditCalls = ac
    ∧ (deliverStep ctx st toAgentId rc ac prio er).2.2.reviewCalls = rc
    ∧ (deliverStep ctx st toAgentId rc ac prio er).2.2.envPriority = prio
    ∧ (deliverStep ctx st toAgentId rc ac prio er).2.1 =
        (if isDelivered (deliverStep ctx st toAgentId rc ac prio er).1
         then bumpInteractions st else st)
    ∧ isDelivered (deliverStep ctx st toAgentId rc ac prio er).1 =
        ((deliverStep ctx st toAgentId rc ac prio er).2.2.deliverCalls == 1
          && isOkDelivery ctx.deliverOutcome) := by
  unfold deliverStep
  cases hm : mapGet st.activeAgents toAgentId with
  | none => simp [isDelivered]
  | some a =>
    cases hd : ctx.deliverOutcome <;>
      simp [isDelivered, isOkDelivery, bumpInteractions]

theorem auditStep_trace_frame (ctx : RouteCtx) (st : OrchState)
    (toAgentId : String) (rc prio : Nat) (er : Bool) :
    (auditStep ctx st toAgentId rc prio er).2.2.auditCalls =
        (if ctx.blackBoxPresent then 1 else 0)
    ∧ (auditStep ctx st toAgentId rc prio er).2.2.reviewCalls = rc
    ∧ (auditStep ctx st toAgentId rc prio er).2.2.envPriority = prio
    ∧ (auditStep ctx st toAgentId rc prio er).2.1 =
        (if isDelivered (auditStep ctx st toAgentId rc prio er).1
         then bumpInteractions st else st)
    ∧ isDelivered (auditStep ctx st toAgentId rc prio er).1 =
        ((auditStep ctx st toAgentId rc prio er).2.2.deliverCalls == 1
          && isOkDelivery ctx.deliverOutcome) := by
  unfold auditStep
  cases hb : ctx.blackBoxPresent with
  | false => simpa [hb] using deliverStep_trace_frame ctx st toAgentId rc 0 prio er
  | true =>
    cases ha : ctx.auditOutcome with
    | ok u => simpa [hb, ha] using deliverStep_trace_frame ctx st toAgentId rc 1 prio er
    | thrown e => simp [hb, ha, isDelivered]

/-! ### C1: when is the Black-Box audit record written? -/

/-- C1 counterexample: a Guardian rejection produces no audit record: with
the Guardian registered and rejecting, and the Black-Box registered and
working, `routeMessage` returns `{success:false, reason}` before the
Black-Box step, so `blackBox.processMessage` is called zero times — not
exactly once as claimed. -/
theorem routeMessage_rejection_not_audited :
    (routeMessage ⟨true, .ok ⟨false, "unsafe content"⟩, true, .ok (), .ok "resp"⟩
        sampleState "agentricAI" "math" "hello").2.2.auditCalls = 0
    ∧ (routeMessage ⟨true, .ok ⟨false, "unsafe content"⟩, true, .ok (), .ok "resp"⟩
        sampleState "agentricAI" "math" "hello").1 = .blocked "unsafe content" := by
  decide

/-- C1 (amended): the Black-Box `log_interaction` call happens exactly once
iff the envelope passed the Guardian gate (review skipped or approved) and
`this.blackBox` is non-null, and zero times otherwise; in particular a
Guardian rejection or a thrown review writes no audit record, while an
error after the gate (for example an unknown target agent) is still
preceded by exactly one audit call. -/
theorem routeMessage_audit_iff_gate_passed (ctx : RouteCtx) (st : OrchState)
    (fromAgentId toAgentId msg : String) :
    (routeMessage ctx st fromAgentId toAgentId msg).2.2.auditCalls =
      (if passesGate ctx fromAgentId && ctx.blackBoxPresent then 1 else 0) := by
  unfold routeMessage passesGate
  cases hg : ctx.guardianPresent && fromAgentId != "guardian" with
  | false => simp [hg, (auditStep_trace_frame ctx st toAgentId 0 _ false).1]
  | true =>
    cases hr : ctx.review with
    | thrown e => simp [hg, hr]
    | ok r =>
      cases hap : r.approved with
      | false => simp [hg, hr, hap]
      | true => simp [hg, hr, hap, (auditStep_trace_frame ctx st toAgentId 1 _ true).1]

/-! ### C2: delivery versus Guardian approval -/

/-- C2 counterexample: the routing path is fail-open, not fail-closed,
when the Guardian is unavailable: with `this.guardian` null the review is
skipped entirely (`reviewCalls = 0`) and the message is delivered to the
target agent anyway. -/
theorem routeMessage_guardian_null_fail_open :
    (routeMessage ⟨false, .ok ⟨true, "unused"⟩, false, .ok (), .ok "resp"⟩
        sampleState "agentricAI" "math" "hello").1 = .delivered "resp"
    ∧ (routeMessage ⟨false, .ok ⟨true, "unused"⟩, false, .ok (), .ok "resp"⟩
        sampleState "agentricAI" "math" "hello").2.2.reviewCalls = 0 := by
  decide

/-- C2 (amended): when `this.guardian` is non-null and the sender is not
the Guardian, the target agent `processMessage` is reached only if the
review resolved with `approved = true`; a thrown review or a rejection
yields no delivery (the rejection returning `{success:false, reason}`).
When `this.guardian` is null, however, the code skips the review and
delivers anyway (fail-open), so the claimed unavailability clause fails —
see the counterexample. -/
theorem routeMessage_guarded_fail_closed (ctx : RouteCtx) (st : OrchState)
    (fromAgentId toAgentId msg : String)
    (hg : ctx.guardianPresent = true) (hf : fromAgentId ≠ "guardian") :
    ((routeMessage ctx st fromAgentId toAgentId msg).2.2.deliverCalls ≥ 1 →
       ∃ r, ctx.review = .ok r ∧ r.approved = true)
    ∧ (∀ e, ctx.review = .thrown e →
        (routeMessage ctx st fromAgentId toAgentId msg).2.2.deliverCalls = 0)
    ∧ (∀ r, ctx.review = .ok r → r.approved = false →
        (routeMessage ctx st fromAgentId toAgentId msg).2.2.deliverCalls = 0
        ∧ (routeMessage ctx st fromAgentId toAgentId msg).1 = .blocked r.reason) := by
  unfold routeMessage
  have hcond : (ctx.guardianPresent && fromAgentId != "guardian") = true := by
    simp [hg, hf]
  cases hr : ctx.review with
  | thrown e =>
    refine ⟨?_, ?_, ?_⟩
    · intro h
      simp [hcond, hr] at h
    · intro e1 _
      simp [hcond, hr]
    · intro r hcontra
      simp [hr] at hcontra
  | ok r =>
    cases hap : r.approved with
    | false =>
      refine ⟨?_, ?_, ?_⟩
      · intro h
        simp [hcond, hr, hap] at h
      · intro e1 hcontra
        simp [hr] at hcontra
      · intro r1 hr1 _
        have heq : r = r1 := (JsOutcome.ok.injEq r r1).mp hr1
        subst heq
        simp [hcond, hr, hap]
    | true =>
      refine ⟨?_, ?_, ?_⟩
      · intro _
        exact ⟨r, rfl, hap⟩
      · intro e1 hcontra
        simp [hr] at hcontra
      · intro r1 hr1 hap1
        have heq : r = r1 := (JsOutcome.ok.injEq r r1).mp hr1
        subst heq
        rw [hap] at hap1
        exact absurd hap1 (by simp)

/-- C2 witness: a thrown Guardian review on a concrete state results in no
delivery call. -/
theorem routeMessage_guarded_fail_closed_witness :
    (routeMessage ⟨true, .thrown "guardian crashed", true, .ok (), .ok "resp"⟩
        sampleState "agentricAI" "math" "hello").2.2.deliverCalls = 0 :=
  (routeMessage_guarded_fail_closed
      ⟨true, .thrown "guardian crashed", true, .ok (), .ok "resp"⟩
      sampleState "agentricAI" "math" "hello" (by decide) (by decide)).2.1
    "guardian crashed" (by decide)

/-! ### C10: the totalInteractions frame condition -/

/-- C10: `routeMessage` increments `systemState.totalInteractions` exactly
once — and changes nothing else in the state — precisely when the outcome
is a delivered response, which happens precisely when the target agent
`processMessage` call was made (`deliverCalls = 1`) and resolved without
throwing; on a Guardian rejection, an unknown target, or any throw, the
state is returned unchanged. -/
theorem routeMessage_interactions_frame (ctx : RouteCtx) (st : OrchState)
    (fromAgentId toAgentId msg : String) :
    (routeMessage ctx st fromAgentId toAgentId msg).2.1 =
      (if isDelivered (routeMessage ctx st fromAgentId toAgentId msg).1
       then bumpInteractions st else st)
    ∧ isDelivered (routeMessage ctx st fromAgentId toAgentId msg).1 =
      ((routeMessage ctx st fromAgentId toAgentId msg).2.2.deliverCalls == 1
        && isOkDelivery ctx.deliverOutcome) := by
  unfold routeMessage
  cases hg : ctx.guardianPresent && fromAgentId != "guardian" with
  | false =>
    have h := auditStep_trace_frame ctx st toAgentId 0
      (getMessagePriority st fromAgentId toAgentId) false
    simp only [hg, Bool.false_eq_true, if_false]
    exact ⟨h.2.2.2.1, h.2.2.2.2⟩
  | true =>
    cases hr : ctx.review with
    | thrown e => simp [hg, hr, isDelivered]
    | ok r =>
      cases hap : r.approved with
      | false => simp [hg, hr, hap, isDelivered]
      | true =>
        have h := auditStep_trace_frame ctx st toAgentId 1
          (getMessagePriority st fromAgentId toAgentId) true
        simp only [hg, hr, hap, Bool.not_true, if_true]
        simpa using ⟨h.2.2.2.1, h.2.2.2.2⟩

/-! ### C7: the envelope priority rule -/

theorem routeMessage_envPriority_eq (ctx : RouteCtx) (st : OrchState)
    (fromAgentId toAgentId msg : String) :
    (routeMessage ctx st fromAgentId toAgentId msg).2.2.envPriority =
      getMessagePriority st fromAgentId toAgentId := by
  unfold routeMessage
  cases hg : ctx.guardianPresent && fromAgentId != "guardian" with
  | false =>
    simpa [hg] using (auditStep_trace_frame ctx st toAgentId 0
      (getMessagePriority st fromAgentId toAgentId) false).2.2.1
  | true =>
    cases hr : ctx.review with
    | thrown e => simp [hg, hr]
    | ok r =>
      cases hap : r.approved with
      | false => simp [hg, hr, hap]
      | true =>
        simpa [hg, hr, hap] using (auditStep_trace_frame ctx st toAgentId 1
          (getMessagePriority st fromAgentId toAgentId) true).2.2.1

/-- C7: for every envelope built by `routeMessage` whose two endpoints are
both registered in `activeAgents`, the envelope priority is 1 when either
endpoint is the Guardian, else 2 when either endpoint is the Counseling
agent, else the minimum of the two agents' priorities. -/
theorem routeMessage_envelope_priority (ctx : RouteCtx) (st : OrchState)
    (fromAgentId toAgentId msg : String) (fromAgent toAgent : Agent)
    (hfa : mapGet st.activeAgents fromAgentId = some fromAgent)
    (hta : mapGet st.activeAgents toAgentId = some toAgent) :
    (routeMessage ctx st fromAgentId toAgentId msg).2.2.envPriority =
      (if fromAgentId == "guardian" || toAgentId == "guardian" then 1
       else if fromAgentId == "counseling" || toAgentId == "counseling" then 2
       else min fromAgent.priority toAgent.priority) := by
  rw [routeMessage_envPriority_eq]
  unfold getMessagePriority
  rw [hfa, hta]

/-- C7 witness: a concrete routing between the student-facing agent and the
math agent (neither endpoint guardian or counseling) gets the minimum of
their two priorities. -/
theorem routeMessage_envelope_priority_witness :
    (routeMessage ⟨true, .ok ⟨true, "ok"⟩, true, .ok (), .ok "resp"⟩
        sampleState "agentricAI" "math" "hello").2.2.envPriority =
      (if ("agentricAI" == "guardian" || "math" == "guardian") then 1
       else if ("agentricAI" == "counseling" || "math" == "counseling") then 2
       else min sAgent.priority mAgent.priority) :=
  routeMessage_envelope_priority ⟨true, .ok ⟨true, "ok"⟩, true, .ok (), .ok "resp"⟩
    sampleState "agentricAI" "math" "hello" sAgent mAgent (by decide) (by decide)

/-! ### C5: emergency notification order and (lack of) failure isolation -/

/-- C5 counterexample: `handleEmergency` has no per-notifier try/catch: on
a concrete state where the Guardian, Counseling and Principal agents are
all reachable but the Counseling notification throws, the call rejects
with that error and the Principal agent is never notified. -/
theorem handleEmergency_counseling_failure_blocks_principal :
    (handleEmergency ⟨true, .ok (), true, .thrown "counseling crashed", true, .ok ()⟩
        sampleState).2.2.notified = ["guardian", "counseling"]
    ∧ (handleEmergency ⟨true, .ok (), true, .thrown "counseling crashed", true, .ok ()⟩
        sampleState).1 = .thrown "counseling crashed"
    ∧ ¬ "principal" ∈ (handleEmergency
        ⟨true, .ok (), true, .thrown "counseling crashed", true, .ok ()⟩
        sampleState).2.2.notified := by
  decide

/-- C5 (amended): the Guardian is always notified first (whenever
`this.guardian` is non-null it heads the notification sequence, and a
thrown Guardian notification stops everything after it), but notifier
failures are NOT isolated: a thrown Counseling notification propagates out
of `handleEmergency` and prevents the Principal notification.
`emergencyMode` is nevertheless set on every path. -/
theorem handleEmergency_guardian_first_no_isolation (ctx : EmergCtx) (st : OrchState) :
    (ctx.guardianPresent = true →
      (handleEmergency ctx st).2.2.notified.head? = some "guardian")
    ∧ (∀ e, ctx.guardianPresent = true → ctx.guardianNotify = .thrown e →
        (handleEmergency ctx st).2.2.notified = ["guardian"])
    ∧ (∀ e, ctx.counselingPresent = true → ctx.counselingNotify = .thrown e →
        ¬ "principal" ∈ (handleEmergency ctx st).2.2.notified)
    ∧ (handleEmergency ctx st).2.1.systemState.emergencyMode = true := by
  obtain ⟨gp, gn, cp, cn, pp, pn⟩ := ctx
  cases gp <;> cases gn <;> cases cp <;> cases cn <;> cases pp <;> cases pn <;>
    simp [handleEmergency, emergencyFanout, emergencyPrincipal]

/-- C5 witness: on a concrete context with all three notifiers reachable
and none throwing, the Guardian heads the notification order. -/
theorem handleEmergency_guardian_first_no_isolation_witness :
    (handleEmergency ⟨true, .ok (), true, .ok (), true, .ok ()⟩
        sampleState).2.2.notified.head? = some "guardian" :=
  (handleEmergency_guardian_first_no_isolation
      ⟨true, .ok (), true, .ok (), true, .ok ()⟩ sampleState).1 (by decide)

/-! ### Initialization lemmas -/

theorem initDept_sysState (now : String) :
    ∀ (cfgs : List (String × JsOutcome AgentConfig)) (st : OrchState),
      (initDepartmentalAgents now cfgs st).systemState = st.systemState := by
  intro cfgs
  induction cfgs with
  | nil => intro st; rfl
  | cons hd tl ih =>
    intro st
    obtain ⟨d, oc⟩ := hd
    cases oc with
    | thrown e => simpa only [initDepartmentalAgents] using ih st
    | ok cfg =>
      simp only [initDepartmentalAgents]
      rw [ih]
      rfl

theorem initDept_activeAgents_ne (now k : String) :
    ∀ (cfgs : List (String × JsOutcome AgentConfig)) (st : OrchState),
      (∀ d ∈ cfgs, d.1 ≠ k) →
      mapGet (initDepartmentalAgents now cfgs st).activeAgents k =
        mapGet st.activeAgents k := by
  intro cfgs
  induction cfgs with
  | nil => intro st _; rfl
  | cons hd tl ih =>
    intro st h
    obtain ⟨d, oc⟩ := hd
    have hd1 : d ≠ k := h (d, oc) (List.mem_cons_self _ _)
    have htl : ∀ x ∈ tl, x.1 ≠ k := fun x hx => h x (List.mem_cons_of_mem _ hx)
    cases oc with
    | thrown e => simpa only [initDepartmentalAgents] using ih st htl
    | ok cfg =>
      simp only [initDepartmentalAgents]
      rw [ih _ htl]
      exact mapGet_mapSet_ne _ _ _ _ (Ne.symm hd1)

/-! ### C4: fatal versus best-effort initialization failures -/

/-- C4: the asymmetric initialization policy of `initialize()`: when the
Guardian, Black-Box and student-facing creations all resolve, the call
resolves with system status operational and the student-facing agent
registered — regardless of how many departmental creations threw (each is
caught inside the loop and skipped); when the Guardian (or Black-Box, or
student-facing) creation throws, the call rejects and the system status
becomes error. -/
theorem initOrchestrator_failure_policy (ctx : InitCtx) (st : OrchState) :
    (cfgIsOk ctx.guardianCfg = true → cfgIsOk ctx.blackBoxCfg = true →
      cfgIsOk ctx.studentCfg = true →
      (initOrchestrator ctx st).1 = .ok ()
      ∧ (initOrchestrator ctx st).2.systemState.status = "operational"
      ∧ mapGet (initOrchestrator ctx st).2.activeAgents "agentricAI" ≠ none)
    ∧ (cfgIsOk ctx.guardianCfg = false →
      (∃ e, (initOrchestrator ctx st).1 = .thrown e)
      ∧ (initOrchestrator ctx st).2.systemState.status = "error")
    ∧ (cfgIsOk ctx.blackBoxCfg = false →
      (∃ e, (initOrchestrator ctx st).1 = .thrown e)
      ∧ (initOrchestrator ctx st).2.systemState.status = "error")
    ∧ (cfgIsOk ctx.studentCfg = false →
      (∃ e, (initOrchestrator ctx st).1 = .thrown e)
      ∧ (initOrchestrator ctx st).2.systemState.status = "error") := by
  obtain ⟨gc, bc, dc, sc, now⟩ := ctx
  cases gc <;> cases bc <;> cases sc <;>
    simp [initOrchestrator, initImmutableAgents, initStudentAgent, cfgIsOk,
      mapGet_mapSet_self]

/-- C4 witness: a concrete initialization where the single departmental
agent's creation throws still resolves with status operational and the
student-facing agent registered. -/
theorem initOrchestrator_failure_policy_witness :
    (initOrchestrator
        ⟨.ok ⟨some "guardian-001", some "The Guardian", some "guardian", some 0⟩,
         .ok ⟨some "blackbox-001", some "The Black Box", some "black-box", some 0⟩,
         [("math", .thrown "math agent creation failed")],
         .ok ⟨some "student-001", some "AgentricAI", some "student", some 3⟩,
         "t0"⟩ emptyState).1 = .ok ()
    ∧ (initOrchestrator
        ⟨.ok ⟨some "guardian-001", some "The Guardian", some "guardian", some 0⟩,
         .ok ⟨some "blackbox-001", some "The Black Box", some "black-box", some 0⟩,
         [("math", .thrown "math agent creation failed")],
         .ok ⟨some "student-001", some "AgentricAI", some "student", some 3⟩,
         "t0"⟩ emptyState).2.systemState.status = "operational"
    ∧ mapGet (initOrchestrator
        ⟨.ok ⟨some "guardian-001", some "The Guardian", some "guardian", some 0⟩,
         .ok ⟨some "blackbox-001", some "The Black Box", some "black-box", some 0⟩,
         [("math", .thrown "math agent creation failed")],
         .ok ⟨some "student-001", some "AgentricAI", some "student", some 3⟩,
         "t0"⟩ emptyState).2.activeAgents "agentricAI" ≠ none :=
  (initOrchestrator_failure_policy
      ⟨.ok ⟨some "guardian-001", some "The Guardian", some "guardian", some 0⟩,
       .ok ⟨some "blackbox-001", some "The Black Box", some "black-box", some 0⟩,
       [("math", .thrown "math agent creation failed")],
       .ok ⟨some "student-001", some "AgentricAI", some "student", some 3⟩,
       "t0"⟩ emptyState).1 (by decide) (by decide) (by decide)

/-! ### C8: the immutable agents after initialization -/

/-- A concrete fully-successful initialization context. -/
def initCtxAllOk : InitCtx :=
  ⟨.ok ⟨some "guardian-001", some "The Guardian", some "guardian", some 0⟩,
   .ok ⟨some "blackbox-001", some "The Black Box", some "black-box", some 0⟩,
   [("math", .ok ⟨some "math-001", some "The Mathematician", some "math", some 4⟩)],
   .ok ⟨some "student-001", some "AgentricAI", some "student", some 3⟩,
   "t0"⟩

/-- C8 counterexample: mutation of the Guardian does NOT fail: after a
concrete successful initialization, the Guardian carries
`immutable = true` and `priority = 0`, yet its own `updateStatus` method
happily overwrites its status — nothing in the code enforces the
immutable flag. -/
theorem guardian_updateStatus_succeeds :
    ((mapGet (initOrchestrator initCtxAllOk emptyState).2.activeAgents "guardian").map
        (fun a => (a.immutable, a.priority, (updateStatus a "compromised" "t1").status)))
      = some (true, 0, "compromised") := by decide

/-- C8 (amended): after an initialization whose Guardian, Black-Box and
student creations resolve (and whose departmental registry uses neither
reserved key), the Guardian and Black-Box entries of `activeAgents` have
`priority = 0` and `immutable = true`; but attempts to mutate them do not
fail: `updateStatus` unconditionally succeeds on any agent, overwriting
its status while the code never consults the immutable flag. -/
theorem immutable_agents_priority_zero_mutable (ctx : InitCtx) (st : OrchState)
    (gcfg bcfg scfg : AgentConfig)
    (hg : ctx.guardianCfg = .ok gcfg) (hb : ctx.blackBoxCfg = .ok bcfg)
    (hs : ctx.studentCfg = .ok scfg)
    (hdept : ∀ d ∈ ctx.departmentalCfgs, d.1 ≠ "guardian" ∧ d.1 ≠ "blackBox") :
    ((mapGet (initOrchestrator ctx st).2.activeAgents "guardian").map Agent.priority = some 0
      ∧ (mapGet (initOrchestrator ctx st).2.activeAgents "guardian").map Agent.immutable = some true)
    ∧ ((mapGet (initOrchestrator ctx st).2.activeAgents "blackBox").map Agent.priority = some 0
      ∧ (mapGet (initOrchestrator ctx st).2.activeAgents "blackBox").map Agent.immutable = some true)
    ∧ (∀ (a : Agent) (s now : String), (updateStatus a s now).status = s
        ∧ (updateStatus a s now).priority = a.priority
        ∧ (updateStatus a s now).immutable = a.immutable) := by
  obtain ⟨gc, bc, dc, sc, now⟩ := ctx
  have hg2 : gc = .ok gcfg := hg
  have hb2 : bc = .ok bcfg := hb
  have hs2 : sc = .ok scfg := hs
  have hd2 : ∀ d ∈ dc, d.1 ≠ "guardian" ∧ d.1 ≠ "blackBox" := hdept
  subst hg2; subst hb2; subst hs2
  simp only [initOrchestrator, initImmutableAgents, initStudentAgent, createAgent]
  refine ⟨⟨?_, ?_⟩, ⟨?_, ?_⟩, fun a s n => ⟨rfl, rfl, rfl⟩⟩
  · rw [mapGet_mapSet_ne _ _ _ _ (by decide),
        initDept_activeAgents_ne now "guardian" dc _ (fun d hd => (hd2 d hd).1),
        mapGet_mapSet_ne _ _ _ _ (by decide), mapGet_mapSet_self]
    rfl
  · rw [mapGet_mapSet_ne _ _ _ _ (by decide),
        initDept_activeAgents_ne now "guardian" dc _ (fun d hd => (hd2 d hd).1),
        mapGet_mapSet_ne _ _ _ _ (by decide), mapGet_mapSet_self]
    rfl
  · rw [mapGet_mapSet_ne _ _ _ _ (by decide),
        initDept_activeAgents_ne now "blackBox" dc _ (fun d hd => (hd2 d hd).2),
        mapGet_mapSet_self]
    rfl
  · rw [mapGet_mapSet_ne _ _ _ _ (by decide),
        initDept_activeAgents_ne now "blackBox" dc _ (fun d hd => (hd2 d hd).2),
        mapGet_mapSet_self]
    rfl

/-- C8 witness: the amended statement instantiated on the concrete
successful initialization. -/
theorem immutable_agents_priority_zero_mutable_witness :
    ((mapGet (initOrchestrator initCtxAllOk emptyState).2.activeAgents "guardian").map Agent.priority = some 0
      ∧ (mapGet (initOrchestrator initCtxAllOk emptyState).2.activeAgents "guardian").map Agent.immutable = some true)
    ∧ ((mapGet (initOrchestrator initCtxAllOk emptyState).2.activeAgents "blackBox").map Agent.priority = some 0
      ∧ (mapGet (initOrchestrator initCtxAllOk emptyState).2.activeAgents "blackBox").map Agent.immutable = some true)
    ∧ (∀ (a : Agent) (s now : String), (updateStatus a s now).status = s
        ∧ (updateStatus a s now).priority = a.priority
        ∧ (updateStatus a s now).immutable = a.immutable) :=
  immutable_agents_priority_zero_mutable initCtxAllOk emptyState
    ⟨some "guardian-001", some "The Guardian", some "guardian", some 0⟩
    ⟨some "blackbox-001", some "The Black Box", some "black-box", some 0⟩
    ⟨some "student-001", some "AgentricAI", some "student", some 3⟩
    (by decide) (by decide) (by decide) (by decide)

/-! ### C9: emergencyMode is sticky -/

theorem handleEmergency_sets_emergencyMode (ctx : EmergCtx) (st : OrchState) :
    (handleEmergency ctx st).2.1.systemState.emergencyMode = true := by
  obtain ⟨gp, gn, cp, cn, pp, pn⟩ := ctx
  cases gp <;> cases gn <;> cases cp <;> cases cn <;> cases pp <;> cases pn <;>
    simp [handleEmergency, emergencyFanout, emergencyPrincipal]

theorem routeMessage_emergencyMode (ctx : RouteCtx) (st : OrchState)
    (fromAgentId toAgentId msg : String) :
    (routeMessage ctx st fromAgentId toAgentId msg).2.1.systemState.emergencyMode =
      st.systemState.emergencyMode := by
  unfold routeMessage
  cases hg : ctx.guardianPresent && fromAgentId != "guardian" with
  | false =>
    have h := (auditStep_trace_frame ctx st toAgentId 0
      (getMessagePriority st fromAgentId toAgentId) false).2.2.2.1
    simp only [hg, Bool.false_eq_true, if_false]
    rw [h]
    split <;> rfl
  | true =>
    cases hr : ctx.review with
    | thrown e => simp [hg, hr]
    | ok r =>
      cases hap : r.approved with
      | false => simp [hg, hr, hap]
      | true =>
        have h := (auditStep_trace_frame ctx st toAgentId 1
          (getMessagePriority st fromAgentId toAgentId) true).2.2.2.1
        simp only [hg, hr, hap, Bool.not_true, Bool.false_eq_true, if_false,
          eq_self_iff_true, if_true]
        rw [h]
        split <;> rfl

theorem initOrchestrator_emergencyMode (ctx : InitCtx) (st : OrchState) :
    (initOrchestrator ctx st).2.systemState.emergencyMode =
      st.systemState.emergencyMode := by
  obtain ⟨gc, bc, dc, sc, now⟩ := ctx
  cases gc <;> cases bc <;> cases sc <;>
    simp [initOrchestrator, initImmutableAgents, initStudentAgent, createAgent,
      initDept_sysState]

/-- C9: `handleEmergency` always leaves `systemState.emergencyMode` true,
and the flag is sticky: every operation of the core (initialization,
routing, emergency handling, agent creation, the health-monitor tick)
preserves a true `emergencyMode` — no operation ever resets it to
false. -/
theorem emergencyMode_sticky :
    (∀ (ctx : EmergCtx) (st : OrchState),
      (handleEmergency ctx st).2.1.systemState.emergencyMode = true)
    ∧ (∀ (op : CoreOp) (st : OrchState), st.systemState.emergencyMode = true →
        (applyOp op st).systemState.emergencyMode = true) := by
  refine ⟨handleEmergency_sets_emergencyMode, ?_⟩
  intro op st h
  cases op with
  | opInit ctx =>
    simp only [applyOp]
    rw [initOrchestrator_emergencyMode]
    exact h
  | opRoute ctx f t m =>
    simp only [applyOp]
    rw [routeMessage_emergencyMode]
    exact h
  | opEmergency ctx => exact handleEmergency_sets_emergencyMode ctx st
  | opCreateAgent id cfg now => exact h
  | opHealthTick now => exact h

/-- A concrete state in which emergency mode has been raised. -/
def emergencyState : OrchState :=
  { sampleState with systemState := ⟨"operational", none, 5, true⟩ }

/-- C9 witness: a health tick on a concrete emergency-mode state leaves
the flag raised. -/
theorem emergencyMode_sticky_witness :
    (applyOp (.opHealthTick "t9") emergencyState).systemState.emergencyMode = true :=
  emergencyMode_sticky.2 (.opHealthTick "t9") emergencyState (by decide)

end AAU
